import Mathlib

/-!
Shallow embedding of the stock-analysis pipeline: the Polygon market-data
client, the OpenAI recommendation client, the two mock generators
(`src/lib/api.ts`), the watchlist `addTicker` operation and the two
`handleAnalyze` orchestrator variants (the single-ticker and multi-ticker
`StockAnalyzer` components).

Conventions of the embedding:
- JavaScript numbers are modelled as rationals (`ℚ`).
- `parseFloat(x.toFixed(2))` is modelled by `round2` (round to nearest
  hundredth, half towards positive infinity).
- JavaScript string methods `toUpperCase`/`trim` are modelled by
  `jsToUpper`/`jsTrim` (ASCII case mapping, whitespace trim).
- `Math.random()` draws are explicit parameters (`MockRand`, `RecRand`),
  each draw standing for one `Math.random()` call in source order.
- Network calls are explicit environment parameters: an
  `Except String PolygonResponse` (or a function producing one) stands for
  the vendor HTTP fetch, `.error` modelling a non-ok / rejected response;
  `ReplyContent` models the chat-completion reply content after the
  `choices[0].message.content` extraction and `JSON.parse` steps.
- A thrown JS `Error` is `Except.error` carrying the message; a
  `try`/`catch` that rethrows a generic error is an outer `match` that
  replaces any inner error with the generic message.
-/

/-- Model of `parseFloat(x.toFixed(2))`: round to 2 decimal places. -/
def round2 (x : ℚ) : ℚ := ((⌊x * 100 + 1/2⌋ : ℤ) : ℚ) / 100

/-- Model of JavaScript `String.prototype.toUpperCase` (ASCII range). -/
def jsToUpper (s : String) : String := String.mk (s.data.map Char.toUpper)

/-- Model of JavaScript `String.prototype.trim`. -/
def jsTrim (s : String) : String :=
  String.mk (((s.data.dropWhile Char.isWhitespace).reverse.dropWhile Char.isWhitespace).reverse)

/-- `interface PolygonStockData` from `src/lib/api.ts`. The source field
`open` is named `openPrice` here because `open` is a Lean keyword. -/
structure PolygonStockData where
  ticker : String
  price : ℚ
  change : ℚ
  changePercent : ℚ
  volume : ℚ
  marketCap : Option ℚ := none
  openPrice : Option ℚ := none
  high : Option ℚ := none
  low : Option ℚ := none
  previousClose : Option ℚ := none
deriving DecidableEq

/-- One aggregate bar of the Polygon response (`data.results` entries):
close, open, high, low, volume. -/
structure Candle where
  c : ℚ
  o : ℚ
  h : ℚ
  l : ℚ
  v : ℚ
deriving DecidableEq

/-- The parsed JSON body of a successful Polygon aggregates response. -/
structure PolygonResponse where
  results : List Candle
deriving DecidableEq

/-- Body of `PolygonService.getStockData` after a successful fetch and
`response.json()` (`src/lib/api.ts` lines 44-73): takes the last candle,
derives `previousClose` from the second-to-last candle when present (else
the current price), and computes `change`/`changePercent`. -/
def getStockDataCore (ticker : String) (data : PolygonResponse) : Except String PolygonStockData :=
  match data.results.getLast? with
  | none => Except.error ("No results returned for " ++ ticker)
  | some latest =>
      let price := latest.c
      let previousClose :=
        if data.results.length > 1 then
          (data.results.getD (data.results.length - 2) latest).c
        else price
      let change := price - previousClose
      let changePercent := if previousClose ≠ 0 then (change / previousClose) * 100 else 0
      Except.ok
        { ticker := jsToUpper ticker
          price := price
          change := round2 change
          changePercent := round2 changePercent
          volume := latest.v
          marketCap := none
          openPrice := some latest.o
          high := some latest.h
          low := some latest.l
          previousClose := some previousClose }

/-- `PolygonService.getStockData` (`src/lib/api.ts` lines 34-78). `resp`
models the fetch: `.error` stands for a non-ok HTTP response or a network
failure. The surrounding `try`/`catch` rethrows every failure as the
generic `Failed to fetch stock data for <ticker>` error. -/
def getStockData (ticker : String) (resp : Except String PolygonResponse) :
    Except String PolygonStockData :=
  match resp.bind (getStockDataCore ticker) with
  | Except.ok s => Except.ok s
  | Except.error _ => Except.error ("Failed to fetch stock data for " ++ ticker)

/-- The JSON object obtained by `JSON.parse` of the model reply content,
with every expected key optional (a missing key reads as `undefined`). -/
structure ModelReplyJson where
  recommendation : Option String := none
  confidence : Option ℚ := none
  reasoning : Option String := none
  riskLevel : Option String := none
  priceTarget : Option ℚ := none
deriving DecidableEq

/-- The `choices[0].message.content` of a chat-completion response:
either absent (falsy), present but not valid JSON (so that `JSON.parse`
throws), or parsed into a `ModelReplyJson`. -/
inductive ReplyContent where
  | missing : ReplyContent
  | unparseable : ReplyContent
  | parsed : ModelReplyJson → ReplyContent
deriving DecidableEq

/-- JavaScript truthiness of an optional string value: `undefined` and
the empty string are falsy. -/
def truthyStr : Option String → Bool
  | none => false
  | some s => s ≠ ""

/-- JavaScript truthiness of an optional numeric value: `undefined` and
`0` are falsy. -/
def truthyNum : Option ℚ → Bool
  | none => false
  | some q => q ≠ 0

/-- `interface OpenAIRecommendation` from `src/lib/api.ts`. The
`recommendation` and `riskLevel` unions are modelled as strings. -/
structure OpenAIRecommendation where
  recommendation : String
  confidence : ℚ
  reasoning : String
  riskLevel : String
  priceTarget : Option ℚ := none
deriving DecidableEq

/-- The validate-and-build step of `OpenAIService.getStockRecommendation`
(`src/lib/api.ts` lines 163-178): rejects the parsed object when any of
`recommendation`, `confidence`, `reasoning` is falsy, clamps `confidence`
into `[60, 100]` and defaults a falsy `riskLevel` to `MEDIUM`. -/
def validateAndBuild (j : ModelReplyJson) : Except String OpenAIRecommendation :=
  if truthyStr j.recommendation && truthyNum j.confidence && truthyStr j.reasoning then
    Except.ok
      { recommendation := j.recommendation.getD ""
        confidence := min (max (j.confidence.getD 0) 60) 100
        reasoning := j.reasoning.getD ""
        riskLevel := if truthyStr j.riskLevel then j.riskLevel.getD "" else "MEDIUM"
        priceTarget := j.priceTarget }
  else Except.error "Invalid response format from OpenAI"

/-- `OpenAIService.getStockRecommendation` (`src/lib/api.ts` lines
90-183). `stockData` only feeds the prompt sent over the network, so the
reply is supplied by the caller as a function of it; `reply` models the
fetch plus content extraction and `JSON.parse`. The `try`/`catch`
rethrows every failure as the generic error. -/
def getStockRecommendation (stockData : PolygonStockData)
    (reply : Except String ReplyContent) : Except String OpenAIRecommendation :=
  let inner : Except String OpenAIRecommendation :=
    match reply with
    | Except.error e => Except.error ("OpenAI API error: " ++ e)
    | Except.ok ReplyContent.missing => Except.error "No response from OpenAI"
    | Except.ok ReplyContent.unparseable => Except.error "Unexpected token in JSON"
    | Except.ok (ReplyContent.parsed j) => validateAndBuild j
  match inner with
  | Except.ok r => Except.ok r
  | Except.error _ => Except.error "Failed to generate AI recommendation"

/-- Model of JavaScript `Number.prototype.toFixed(2)` for the template
strings (round to nearest hundredth, printed with two decimals). -/
def toFixed2 (q : ℚ) : String :=
  let n : ℤ := ⌊q * 100 + 1/2⌋
  let sign := if n < 0 then "-" else ""
  let m := n.natAbs
  let frac := m % 100
  sign ++ toString (m / 100) ++ "." ++ (if frac < 10 then "0" ++ toString frac else toString frac)

/-- Digit grouping for `jsToLocaleString`: input and output are reversed
digit lists, a comma is inserted after every third digit. -/
def commaRev : List Char → Nat → List Char
  | [], _ => []
  | c :: cs, k =>
      if k ≠ 0 ∧ k % 3 = 0 then ',' :: c :: commaRev cs (k + 1)
      else c :: commaRev cs (k + 1)

/-- Model of `Number.prototype.toLocaleString()` under an `en-US` locale
for the integral values this app formats (volumes): thousands grouping
with commas. Fractional parts (never produced by the mock generator) are
not rendered. -/
def jsToLocaleString (q : ℚ) : String :=
  let n : ℤ := ⌊q⌋
  let sign := if n < 0 then "-" else ""
  sign ++ String.mk ((commaRev (toString n.natAbs).data.reverse 0).reverse)

/-- The draws of the four `Math.random()` calls made by
`createMockStockData`, in source order. -/
structure MockRand where
  rPrice : ℚ
  rChange : ℚ
  rVolume : ℚ
  rCap : ℚ
deriving DecidableEq

/-- `createMockStockData` (`src/lib/api.ts` lines 187-203). -/
def createMockStockData (ticker : String) (r : MockRand) : PolygonStockData :=
  let basePrice := r.rPrice * 500 + 50
  let change := (r.rChange - 1/2) * 20
  { ticker := jsToUpper ticker
    price := round2 basePrice
    change := round2 change
    changePercent := round2 ((change / basePrice) * 100)
    volume := ((⌊r.rVolume * 10000000⌋ : ℤ) : ℚ)
    marketCap := some (r.rCap * 1000000000000)
    openPrice := some (round2 (basePrice * (98/100)))
    high := some (round2 (basePrice * (105/100)))
    low := some (round2 (basePrice * (95/100)))
    previousClose := some (round2 (basePrice - change)) }

/-- The `recommendations` array of `createMockRecommendation`. -/
def recommendationsList : List String := ["BUY", "SELL", "HOLD"]

/-- The `riskLevels` array of `createMockRecommendation`. -/
def riskLevelsList : List String := ["LOW", "MEDIUM", "HIGH"]

/-- The draws of the four `Math.random()` calls made by
`createMockRecommendation`, in source order. -/
structure RecRand where
  rRec : ℚ
  rConf : ℚ
  rTarget : ℚ
  rRisk : ℚ
deriving DecidableEq

/-- The templated `reasoning` string of `createMockRecommendation`. -/
def mockReasoning (stockData : PolygonStockData) : String :=
  "Based on current market conditions and " ++ stockData.ticker ++
    (Char.ofNat 39).toString ++ "s recent performance showing " ++
    (if stockData.changePercent ≥ 0 then "positive" else "negative") ++
    " momentum of " ++ toFixed2 stockData.changePercent ++
    "%, this recommendation considers technical indicators, trading volume of " ++
    jsToLocaleString stockData.volume ++
    ", and fundamental analysis. The stock shows " ++
    (if stockData.change ≥ 0 then "upward" else "downward") ++
    " pressure with current volatility."

/-- `createMockRecommendation` (`src/lib/api.ts` lines 205-237). Array
indexing `arr[Math.floor(r * 3)]` is modelled with `List.getD`; for the
draws produced by `Math.random()` (in `[0, 1)`) the index is always in
range, so the defaults never apply. -/
def createMockRecommendation (stockData : PolygonStockData) (r : RecRand) :
    OpenAIRecommendation :=
  { recommendation := recommendationsList.getD (⌊r.rRec * 3⌋).toNat "BUY"
    confidence := ((⌊r.rConf * 40 + 60⌋ : ℤ) : ℚ)
    reasoning := mockReasoning stockData
    riskLevel := riskLevelsList.getD (⌊r.rRisk * 3⌋).toNat "LOW"
    priceTarget := some (round2 (stockData.price * (1 + (r.rTarget - 1/2) * (3/10)))) }

/-- The presentation state of the single-ticker `StockAnalyzer` variant:
`stockData`, `aiRecommendation`, `error`, `loading`. -/
structure SingleState where
  stockData : Option PolygonStockData
  aiRecommendation : Option OpenAIRecommendation
  error : Option String
  loading : Bool
deriving DecidableEq

/-- `handleAnalyze` of the single-ticker `StockAnalyzer` variant. An
empty (after trim) input only shows a toast and leaves the state alone;
otherwise the previous `stockData`/`aiRecommendation`/`error` are cleared
up front, then the real path (both API keys truthy) or the mock path
runs, and the outcome is committed (with `loading` reset by the
`finally`). -/
def handleAnalyzeSingle (polygonKey openaiKey : String) (ticker : String)
    (polygonEnv : String → Except String PolygonResponse)
    (openaiEnv : PolygonStockData → Except String ReplyContent)
    (mockRand : MockRand) (recRand : RecRand) (st : SingleState) : SingleState :=
  if jsTrim ticker = "" then st
  else
    let outcome : Except String (PolygonStockData × OpenAIRecommendation) :=
      if polygonKey ≠ "" ∧ openaiKey ≠ "" then
        match getStockData ticker (polygonEnv ticker) with
        | Except.error e => Except.error e
        | Except.ok sd =>
            match getStockRecommendation sd (openaiEnv sd) with
            | Except.error e => Except.error e
            | Except.ok ar => Except.ok (sd, ar)
      else
        let sd := createMockStockData ticker mockRand
        Except.ok (sd, createMockRecommendation sd recRand)
    match outcome with
    | Except.ok (sd, ar) =>
        { stockData := some sd, aiRecommendation := some ar, error := none, loading := false }
    | Except.error e =>
        { stockData := none, aiRecommendation := none, error := some e, loading := false }

/-- The presentation state of the multi-ticker `StockAnalyzer` variant:
`results`, `error`, `loading`. -/
structure MultiState where
  results : List (PolygonStockData × OpenAIRecommendation)
  error : Option String
  loading : Bool
deriving DecidableEq

/-- The body of the `for (const tickerSymbol of tickers)` loop of the
multi-ticker `handleAnalyze`: the real path (both keys truthy) fetches
the snapshot with `getStockData` but — as in the source, where the
`openAIService` call is commented out — produces the recommendation with
`createMockRecommendation`; the mock path fabricates both. `i` counts the
completed iterations so the per-iteration `Math.random()` draws can be
indexed. -/
def analyzeStep (polygonKey openaiKey : String)
    (polygonEnv : String → Except String PolygonResponse)
    (mockRand : Nat → MockRand) (recRand : Nat → RecRand) (i : Nat) (t : String) :
    Except String (PolygonStockData × OpenAIRecommendation) :=
  if polygonKey ≠ "" ∧ openaiKey ≠ "" then
    match getStockData t (polygonEnv t) with
    | Except.error e => Except.error e
    | Except.ok sd => Except.ok (sd, createMockRecommendation sd (recRand i))
  else
    let sd := createMockStockData t (mockRand i)
    Except.ok (sd, createMockRecommendation sd (recRand i))

/-- The `for (const tickerSymbol of tickers)` loop of the multi-ticker
`handleAnalyze`, accumulating `analysisResults` and aborting at the first
failure. -/
def analyzeTickersFrom (polygonKey openaiKey : String)
    (polygonEnv : String → Except String PolygonResponse)
    (mockRand : Nat → MockRand) (recRand : Nat → RecRand) :
    Nat → List String → Except String (List (PolygonStockData × OpenAIRecommendation))
  | _, [] => Except.ok []
  | i, t :: rest =>
      match analyzeStep polygonKey openaiKey polygonEnv mockRand recRand i t with
      | Except.error e => Except.error e
      | Except.ok pair =>
          match analyzeTickersFrom polygonKey openaiKey polygonEnv mockRand recRand (i + 1) rest with
          | Except.error e => Except.error e
          | Except.ok pairs => Except.ok (pair :: pairs)

/-- `handleAnalyze` of the multi-ticker `StockAnalyzer` variant. An empty
watchlist only shows a toast; otherwise `results` is cleared up front, the
loop runs, and either the accumulated list is committed or the error is
surfaced with `results` left empty. -/
def handleAnalyzeMulti (polygonKey openaiKey : String) (tickers : List String)
    (polygonEnv : String → Except String PolygonResponse)
    (mockRand : Nat → MockRand) (recRand : Nat → RecRand) (st : MultiState) : MultiState :=
  if tickers.length = 0 then st
  else
    match analyzeTickersFrom polygonKey openaiKey polygonEnv mockRand recRand 0 tickers with
    | Except.ok rs => { results := rs, error := none, loading := false }
    | Except.error e => { results := [], error := some e, loading := false }

/-- `addTicker` of the multi-ticker `StockAnalyzer` variant: rejects a
blank input, uppercases the entry, rejects it when already present, else
appends it. -/
def addTicker (ticker : String) (tickers : List String) : List String :=
  if jsTrim ticker = "" then tickers
  else
    let upperTicker := jsToUpper ticker
    if upperTicker ∈ tickers then tickers
    else tickers ++ [upperTicker]

/-- The result pair the mock path of the multi-ticker loop produces for
the `i`-th watchlist entry `t`. -/
def mockPair (mockRand : Nat → MockRand) (recRand : Nat → RecRand) (it : Nat × String) :
    PolygonStockData × OpenAIRecommendation :=
  let sd := createMockStockData it.2 (mockRand it.1)
  (sd, createMockRecommendation sd (recRand it.1))

/-- A concrete snapshot used to instantiate universally quantified
theorems in the witnesses below. -/
def sampleSnapshot : PolygonStockData :=
  { ticker := "AAPL", price := 150, change := 2, changePercent := 135/100, volume := 1200,
    marketCap := none, openPrice := some 148, high := some 151, low := some 147,
    previousClose := some 148 }

/-- A concrete default result pair for total indexing via `List.getD`. -/
def dummyPair : PolygonStockData × OpenAIRecommendation :=
  (sampleSnapshot,
    { recommendation := "HOLD", confidence := 60, reasoning := "", riskLevel := "MEDIUM",
      priceTarget := none })

/-- The snapshot `getStockData` builds from a one-candle response with
close 100, open 99, high 101, low 98, volume 500 for ticker `IBM`; used
to instantiate theorems in witnesses. -/
def ibmSnapshot : PolygonStockData :=
  { ticker := "IBM", price := 100, change := 0, changePercent := 0, volume := 500,
    marketCap := none, openPrice := some 99, high := some 101, low := some 98,
    previousClose := some 100 }

/-- The same one-candle snapshot for ticker `AAPL`. -/
def aaplSnapshot : PolygonStockData :=
  { ticker := "AAPL", price := 100, change := 0, changePercent := 0, volume := 500,
    marketCap := none, openPrice := some 99, high := some 101, low := some 98,
    previousClose := some 100 }

/-- The recommendation built from a reply with `BUY`, confidence 80 and
reasoning `solid` (risk level omitted, so defaulted). -/
def goodRec : OpenAIRecommendation :=
  { recommendation := "BUY", confidence := 80, reasoning := "solid", riskLevel := "MEDIUM",
    priceTarget := none }

/-- A vendor environment in which every fetch fails (HTTP 500). -/
def errPolygonEnv : String → Except String PolygonResponse := fun _ => Except.error "HTTP 500"

/-- A vendor environment answering every ticker with the one-candle
response (close 100, open 99, high 101, low 98, volume 500). -/
def okPolygonEnv : String → Except String PolygonResponse :=
  fun _ => Except.ok { results := [{ c := 100, o := 99, h := 101, l := 98, v := 500 }] }

/-- A model environment in which every chat request fails. -/
def errOpenaiEnv : PolygonStockData → Except String ReplyContent := fun _ => Except.error "500"

/-- A model environment answering every prompt with a well-formed reply
(`BUY`, confidence 80, reasoning `solid`). -/
def goodOpenaiEnv : PolygonStockData → Except String ReplyContent :=
  fun _ => Except.ok (ReplyContent.parsed
    { recommendation := some "BUY", confidence := some 80, reasoning := some "solid",
      riskLevel := none, priceTarget := none })

/-- Concrete `Math.random()` draws for one mock snapshot. -/
def mockRand0 : MockRand := { rPrice := 1/10, rChange := 3/4, rVolume := 0, rCap := 0 }

/-- Concrete `Math.random()` draws for one mock recommendation. -/
def recRand0 : RecRand := { rRec := 0, rConf := 1/2, rTarget := 0, rRisk := 0 }

/-- A per-iteration draw stream that always produces `mockRand0`. -/
def constMockRand : Nat → MockRand := fun _ => mockRand0

/-- A per-iteration draw stream that always produces `recRand0`. -/
def constRecRand : Nat → RecRand := fun _ => recRand0

/-- The multi-ticker presentation state before any run. -/
def emptyMultiState : MultiState := { results := [], error := none, loading := false }

/-- A single-ticker presentation state holding a previous successful
result (`sampleSnapshot` with its recommendation). -/
def idleSingleState : SingleState :=
  { stockData := some sampleSnapshot, aiRecommendation := some dummyPair.2,
    error := none, loading := false }

/-- Evaluation rule for `round2` at a known integer of hundredths. -/
lemma round2_eq_of (x : ℚ) (n : ℤ) (h1 : (n : ℚ) ≤ x * 100 + 1/2)
    (h2 : x * 100 + 1/2 < n + 1) : round2 x = (n : ℚ) / 100 := by
  unfold round2
  rw [Int.floor_eq_iff.mpr ⟨h1, by exact_mod_cast h2⟩]

lemma round2_zero : round2 0 = 0 := by
  rw [round2_eq_of 0 0 (by norm_num) (by norm_num)]
  norm_num

/-- C9: a vendor response whose last two candles close at 148.00 and
150.00 yields a snapshot with price 150, previous close 148, change 2.00
and changePercent 1.35. -/
theorem scenario_a_snapshot :
    getStockData "AAPL"
        (Except.ok { results := [{ c := 148, o := 147, h := 149, l := 146, v := 1000 },
                                 { c := 150, o := 148, h := 151, l := 147, v := 1200 }] }) =
      Except.ok { ticker := "AAPL", price := 150, change := 2, changePercent := 135/100,
                  volume := 1200, marketCap := none, openPrice := some 148, high := some 151,
                  low := some 147, previousClose := some 148 } := by
  have hup : jsToUpper "AAPL" = "AAPL" := by decide
  have h1 : round2 ((150 : ℚ) - 148) = 2 := by
    rw [round2_eq_of _ 200 (by norm_num) (by norm_num)]
    norm_num
  have h2 : round2 (((150 : ℚ) - 148) / 148 * 100) = 135/100 := by
    rw [round2_eq_of _ 135 (by norm_num) (by norm_num)]
    norm_num
  simp [getStockData, getStockDataCore, Except.bind, hup, h1, h2]

/-- C6: a vendor response containing exactly one aggregate result does
not fail; the current price is used as the previous close, and the
snapshot has change 0 and changePercent 0. -/
theorem single_result_fallback (tk : String) (cd : Candle) :
    getStockData tk (Except.ok { results := [cd] }) =
      Except.ok { ticker := jsToUpper tk, price := cd.c, change := 0, changePercent := 0,
                  volume := cd.v, marketCap := none, openPrice := some cd.o, high := some cd.h,
                  low := some cd.l, previousClose := some cd.c } := by
  simp [getStockData, getStockDataCore, Except.bind, round2_zero]

/-- Successful `getStockData` runs factor through `getStockDataCore`. -/
lemma getStockData_ok (tk : String) (resp : Except String PolygonResponse)
    (s : PolygonStockData) (h : getStockData tk resp = Except.ok s) :
    ∃ data, resp = Except.ok data ∧ getStockDataCore tk data = Except.ok s := by
  cases resp with
  | error e => simp [getStockData, Except.bind] at h
  | ok data =>
      refine ⟨data, rfl, ?_⟩
      unfold getStockData at h
      cases hc : Except.bind (Except.ok data) (getStockDataCore tk) with
      | ok s2 =>
          rw [hc] at h
          simp at h
          rw [← h]
          simpa [Except.bind] using hc
      | error e =>
          rw [hc] at h
          simp at h

/-- C1 (amended): snapshots built by `getStockData` satisfy the invariant
(previous close present, `change` and `changePercent` derived from `price`
and the previous close with 2-decimal rounding, `changePercent = 0` when
the previous close is zero); snapshots built by `createMockStockData`
instead divide by the unrounded base price, so their `changePercent` is
the rounded `(change / basePrice) × 100`, not `(change / previousClose) ×
100`. -/
theorem changePercent_invariant_amended :
    (∀ (tk : String) (resp : Except String PolygonResponse) (s : PolygonStockData),
        getStockData tk resp = Except.ok s →
        ∃ pc : ℚ, s.previousClose = some pc ∧
          s.change = round2 (s.price - pc) ∧
          (pc ≠ 0 → s.changePercent = round2 ((s.price - pc) / pc * 100)) ∧
          (pc = 0 → s.changePercent = 0)) ∧
    (∀ (tk : String) (r : MockRand),
        (createMockStockData tk r).changePercent =
          round2 ((r.rChange - 1/2) * 20 / (r.rPrice * 500 + 50) * 100)) := by
  constructor
  · intro tk resp s hs
    obtain ⟨data, hresp, hc⟩ := getStockData_ok tk resp s hs
    unfold getStockDataCore at hc
    cases hgl : data.results.getLast? with
    | none => rw [hgl] at hc; simp at hc
    | some latest =>
        rw [hgl] at hc
        simp only [Except.ok.injEq] at hc
        subst hc
        refine ⟨if data.results.length > 1 then
                  (data.results.getD (data.results.length - 2) latest).c
                else latest.c, rfl, rfl, ?_, ?_⟩
        · intro hpc
          show round2 (if _ then _ else _) = _
          rw [if_pos hpc]
        · intro hpc
          show round2 (if _ then _ else _) = _
          rw [if_neg (by simpa using hpc), round2_zero]
  · intro tk r
    rfl

/-- C1 counterexample: the mock snapshot drawn with `Math.random()`
values 0.1 and 0.75 has base price 100, change 5 and previous close 95,
but its `changePercent` is 5 (change over base price), not
`(change / previousClose) × 100 = 100/19 ≈ 5.26` — neither exactly nor up
to the stored 2-decimal rounding. -/
theorem mock_changePercent_counterexample :
    (createMockStockData "AAPL" { rPrice := 1/10, rChange := 3/4, rVolume := 0, rCap := 0 }).previousClose = some 95 ∧
    (createMockStockData "AAPL" { rPrice := 1/10, rChange := 3/4, rVolume := 0, rCap := 0 }).change = 5 ∧
    (createMockStockData "AAPL" { rPrice := 1/10, rChange := 3/4, rVolume := 0, rCap := 0 }).changePercent = 5 ∧
    (createMockStockData "AAPL" { rPrice := 1/10, rChange := 3/4, rVolume := 0, rCap := 0 }).changePercent ≠ (5 / 95) * 100 ∧
    (createMockStockData "AAPL" { rPrice := 1/10, rChange := 3/4, rVolume := 0, rCap := 0 }).changePercent ≠ round2 ((5 / 95) * 100) := by
  have hprev : round2 ((1/10 : ℚ) * 500 + 50 - ((3/4 : ℚ) - 1/2) * 20) = 95 := by
    rw [round2_eq_of _ 9500 (by norm_num) (by norm_num)]
    norm_num
  have hch : round2 (((3/4 : ℚ) - 1/2) * 20) = 5 := by
    rw [round2_eq_of _ 500 (by norm_num) (by norm_num)]
    norm_num
  have hcp : round2 ((((3/4 : ℚ) - 1/2) * 20) / ((1/10 : ℚ) * 500 + 50) * 100) = 5 := by
    rw [round2_eq_of _ 500 (by norm_num) (by norm_num)]
    norm_num
  have hr : round2 (((5 : ℚ) / 95) * 100) = 526/100 := by
    rw [round2_eq_of _ 526 (by norm_num) (by norm_num)]
    norm_num
  refine ⟨?_, ?_, ?_, ?_, ?_⟩
  · show some (round2 ((1/10 : ℚ) * 500 + 50 - ((3/4 : ℚ) - 1/2) * 20)) = some 95
    rw [hprev]
  · show round2 (((3/4 : ℚ) - 1/2) * 20) = 5
    exact hch
  · show round2 ((((3/4 : ℚ) - 1/2) * 20) / ((1/10 : ℚ) * 500 + 50) * 100) = 5
    exact hcp
  · show round2 ((((3/4 : ℚ) - 1/2) * 20) / ((1/10 : ℚ) * 500 + 50) * 100) ≠ (5 / 95) * 100
    rw [hcp]
    norm_num
  · show round2 ((((3/4 : ℚ) - 1/2) * 20) / ((1/10 : ℚ) * 500 + 50) * 100) ≠ round2 ((5 / 95) * 100)
    rw [hcp, hr]
    norm_num

/-- Witness for the amended C1 theorem at a concrete one-candle vendor
response (close 100): the invariant fields are checked on the resulting
snapshot. -/
theorem changePercent_invariant_amended_witness :
    ∃ pc : ℚ,
      ibmSnapshot.previousClose = some pc ∧
      ibmSnapshot.change = round2 (ibmSnapshot.price - pc) ∧
      (pc ≠ 0 → ibmSnapshot.changePercent = round2 ((ibmSnapshot.price - pc) / pc * 100)) ∧
      (pc = 0 → ibmSnapshot.changePercent = 0) :=
  changePercent_invariant_amended.1 "IBM"
    (Except.ok { results := [{ c := 100, o := 99, h := 101, l := 98, v := 500 }] }) ibmSnapshot
    (by
      have hup : jsToUpper "IBM" = "IBM" := by decide
      simp [getStockData, getStockDataCore, Except.bind, round2_zero, hup, ibmSnapshot])


/-- Reduction of `getStockRecommendation` on a parsed reply: the outcome
is the validated build, with errors replaced by the generic message. -/
lemma getStockRecommendation_parsed (sd : PolygonStockData) (j : ModelReplyJson) :
    getStockRecommendation sd (Except.ok (ReplyContent.parsed j)) =
      match validateAndBuild j with
      | Except.ok r => Except.ok r
      | Except.error _ => Except.error "Failed to generate AI recommendation" := rfl

/-- A nonzero present numeric value is truthy. -/
lemma truthyNum_true (q : ℚ) (h : q ≠ 0) : truthyNum (some q) = true := by
  simp [truthyNum, h]

/-- A present zero numeric value is falsy. -/
lemma truthyNum_false : truthyNum (some 0) = false := by
  simp [truthyNum]

/-- `validateAndBuild` rejects the reply when any of the three required
values is falsy. -/
lemma validateAndBuild_reject (j : ModelReplyJson)
    (h : truthyStr j.recommendation = false ∨ truthyNum j.confidence = false ∨
      truthyStr j.reasoning = false) :
    validateAndBuild j = Except.error "Invalid response format from OpenAI" := by
  unfold validateAndBuild
  rcases h with h | h | h <;> simp [h]

/-- `validateAndBuild` builds the clamped record when the three required
values are truthy. -/
lemma validateAndBuild_accept (j : ModelReplyJson)
    (h1 : truthyStr j.recommendation = true) (h2 : truthyNum j.confidence = true)
    (h3 : truthyStr j.reasoning = true) :
    validateAndBuild j =
      Except.ok
        { recommendation := j.recommendation.getD ""
          confidence := min (max (j.confidence.getD 0) 60) 100
          reasoning := j.reasoning.getD ""
          riskLevel := if truthyStr j.riskLevel then j.riskLevel.getD "" else "MEDIUM"
          priceTarget := j.priceTarget } := by
  unfold validateAndBuild
  rw [h1, h2, h3]
  simp

/-- C2: every recommendation record the system constructs has its
`confidence` in `[60, 100]` — the real client clamps any upstream numeric
value (including out-of-range ones) into that interval, and the mock
generator draws `⌊r × 40 + 60⌋` for `r ∈ [0, 1)`. -/
theorem confidence_in_range :
    (∀ (sd : PolygonStockData) (reply : Except String ReplyContent)
        (rec : OpenAIRecommendation),
        getStockRecommendation sd reply = Except.ok rec →
        60 ≤ rec.confidence ∧ rec.confidence ≤ 100) ∧
    (∀ (sd : PolygonStockData) (r : RecRand), 0 ≤ r.rConf → r.rConf < 1 →
        60 ≤ (createMockRecommendation sd r).confidence ∧
        (createMockRecommendation sd r).confidence ≤ 100) := by
  constructor
  · intro sd reply rec h
    rcases reply with e | content
    · simp [getStockRecommendation] at h
    rcases content with _ | _ | j
    · simp [getStockRecommendation] at h
    · simp [getStockRecommendation] at h
    rw [getStockRecommendation_parsed] at h
    cases hv : validateAndBuild j with
    | error e => rw [hv] at h; simp at h
    | ok r0 =>
        rw [hv] at h
        simp only [Except.ok.injEq] at h
        subst h
        unfold validateAndBuild at hv
        split at hv
        · simp only [Except.ok.injEq] at hv
          rw [← hv]
          exact ⟨le_min (le_max_right _ _) (by norm_num), min_le_right _ _⟩
        · simp at hv
  · intro sd r h0 h1
    have hlo : (60 : ℚ) ≤ r.rConf * 40 + 60 := by linarith
    have hfl : ((⌊r.rConf * 40 + 60⌋ : ℤ) : ℚ) ≤ r.rConf * 40 + 60 := Int.floor_le _
    constructor
    · show (60 : ℚ) ≤ ((⌊r.rConf * 40 + 60⌋ : ℤ) : ℚ)
      exact_mod_cast Int.le_floor.mpr hlo
    · show ((⌊r.rConf * 40 + 60⌋ : ℤ) : ℚ) ≤ 100
      linarith

/-- Witness for C2 at an out-of-range upstream confidence 150 (clamped
to 100) and a concrete mock draw 1/2 (giving 80). -/
theorem confidence_in_range_witness :
    (60 ≤ ({ recommendation := "BUY", confidence := 100, reasoning := "ok",
             riskLevel := "MEDIUM", priceTarget := none } : OpenAIRecommendation).confidence ∧
      ({ recommendation := "BUY", confidence := 100, reasoning := "ok",
         riskLevel := "MEDIUM", priceTarget := none } : OpenAIRecommendation).confidence ≤ 100) ∧
    (60 ≤ (createMockRecommendation sampleSnapshot
            { rRec := 0, rConf := 1/2, rTarget := 0, rRisk := 0 }).confidence ∧
      (createMockRecommendation sampleSnapshot
        { rRec := 0, rConf := 1/2, rTarget := 0, rRisk := 0 }).confidence ≤ 100) := by
  constructor
  · refine confidence_in_range.1 sampleSnapshot
      (Except.ok (ReplyContent.parsed
        { recommendation := some "BUY", confidence := some 150, reasoning := some "ok",
          riskLevel := none, priceTarget := none })) _ ?_
    rw [getStockRecommendation_parsed, validateAndBuild_accept _ (by decide)
      (truthyNum_true 150 (by norm_num)) (by decide)]
    have hmm : min (max (150 : ℚ) 60) 100 = 100 := by
      rw [max_eq_left (by norm_num), min_eq_right (by norm_num)]
    simp [truthyStr, hmm]
  · exact confidence_in_range.2 sampleSnapshot
      { rRec := 0, rConf := 1/2, rTarget := 0, rRisk := 0 } (by norm_num) (by norm_num)

/-- C3: a model reply that parses as JSON but misses any one of the keys
`recommendation`, `confidence` or `reasoning` makes
`getStockRecommendation` fail with the generic error; no recommendation
record is produced. -/
theorem missing_key_fails (sd : PolygonStockData) (j : ModelReplyJson)
    (h : j.recommendation = none ∨ j.confidence = none ∨ j.reasoning = none) :
    getStockRecommendation sd (Except.ok (ReplyContent.parsed j)) =
      Except.error "Failed to generate AI recommendation" := by
  rw [getStockRecommendation_parsed, validateAndBuild_reject]
  rcases h with h | h | h
  · exact Or.inl (by rw [h]; rfl)
  · exact Or.inr (Or.inl (by rw [h]; rfl))
  · exact Or.inr (Or.inr (by rw [h]; rfl))

/-- Witness for C3: a reply with `recommendation` and `confidence` but no
`reasoning` key is rejected. -/
theorem missing_key_fails_witness :
    getStockRecommendation sampleSnapshot
        (Except.ok (ReplyContent.parsed
          { recommendation := some "BUY", confidence := some 80, reasoning := none,
            riskLevel := none, priceTarget := none })) =
      Except.error "Failed to generate AI recommendation" :=
  missing_key_fails sampleSnapshot _ (Or.inr (Or.inr rfl))

/-- C10: a reply whose JSON carries the three keys but with a falsy value
(empty-string `recommendation` or `reasoning`, or `confidence` 0) fails
exactly like a missing key — in particular `confidence = 0` is never
clamped to 60. -/
theorem falsy_value_fails (sd : PolygonStockData) (j : ModelReplyJson)
    (h : j.recommendation = some "" ∨ j.confidence = some 0 ∨ j.reasoning = some "") :
    getStockRecommendation sd (Except.ok (ReplyContent.parsed j)) =
      Except.error "Failed to generate AI recommendation" ∧
    ∀ rec : OpenAIRecommendation,
      getStockRecommendation sd (Except.ok (ReplyContent.parsed j)) ≠ Except.ok rec := by
  have he : getStockRecommendation sd (Except.ok (ReplyContent.parsed j)) =
      Except.error "Failed to generate AI recommendation" := by
    rw [getStockRecommendation_parsed, validateAndBuild_reject]
    rcases h with h | h | h
    · exact Or.inl (by rw [h]; rfl)
    · exact Or.inr (Or.inl (by rw [h]; exact truthyNum_false))
    · exact Or.inr (Or.inr (by rw [h]; rfl))
  refine ⟨he, ?_⟩
  rw [he]
  intro rec hcontra
  exact Except.noConfusion hcontra

/-- Witness for C10: a reply with `confidence` 0 (keys all present) is
rejected and yields no recommendation record. -/
theorem falsy_value_fails_witness :
    getStockRecommendation sampleSnapshot
        (Except.ok (ReplyContent.parsed
          { recommendation := some "BUY", confidence := some 0, reasoning := some "fine",
            riskLevel := none, priceTarget := none })) =
      Except.error "Failed to generate AI recommendation" ∧
    ∀ rec : OpenAIRecommendation,
      getStockRecommendation sampleSnapshot
          (Except.ok (ReplyContent.parsed
            { recommendation := some "BUY", confidence := some 0, reasoning := some "fine",
              riskLevel := none, priceTarget := none })) ≠ Except.ok rec :=
  falsy_value_fails sampleSnapshot _ (Or.inr (Or.inl rfl))

/-- C8: adding a ticker whose uppercased form is already in the watchlist
leaves the watchlist unchanged — the length is unchanged, no duplicate is
introduced, and (given the watchlist invariant established by insertion)
all entries stay deduplicated and uppercase. -/
theorem addTicker_rejects_duplicate (input : String) (tickers : List String)
    (hmem : jsToUpper input ∈ tickers) :
    addTicker input tickers = tickers ∧
    (addTicker input tickers).length = tickers.length ∧
    (tickers.Nodup → (addTicker input tickers).Nodup) ∧
    ((∀ t ∈ tickers, jsToUpper t = t) → ∀ t ∈ addTicker input tickers, jsToUpper t = t) := by
  have heq : addTicker input tickers = tickers := by
    unfold addTicker
    by_cases htrim : jsTrim input = ""
    · rw [if_pos htrim]
    · rw [if_neg htrim]
      show (if jsToUpper input ∈ tickers then tickers else tickers ++ [jsToUpper input]) = tickers
      rw [if_pos hmem]
  refine ⟨heq, by rw [heq], fun hn => by rw [heq]; exact hn, fun hu t ht => hu t ?_⟩
  rwa [heq] at ht

/-- Witness for C8: adding `aapl` to the watchlist `[AAPL, TSLA]` is
rejected. -/
theorem addTicker_rejects_duplicate_witness :
    addTicker "aapl" ["AAPL", "TSLA"] = ["AAPL", "TSLA"] ∧
    (addTicker "aapl" ["AAPL", "TSLA"]).length = (["AAPL", "TSLA"] : List String).length ∧
    ((["AAPL", "TSLA"] : List String).Nodup → (addTicker "aapl" ["AAPL", "TSLA"]).Nodup) ∧
    ((∀ t ∈ (["AAPL", "TSLA"] : List String), jsToUpper t = t) →
      ∀ t ∈ addTicker "aapl" ["AAPL", "TSLA"], jsToUpper t = t) :=
  addTicker_rejects_duplicate "aapl" ["AAPL", "TSLA"] (by decide)

/-- A snapshot successfully built by `getStockData` carries the
uppercased ticker. -/
lemma getStockData_ok_ticker (tk : String) (resp : Except String PolygonResponse)
    (s : PolygonStockData) (h : getStockData tk resp = Except.ok s) :
    s.ticker = jsToUpper tk := by
  obtain ⟨data, _, hc⟩ := getStockData_ok tk resp s h
  unfold getStockDataCore at hc
  cases hgl : data.results.getLast? with
  | none => rw [hgl] at hc; simp at hc
  | some latest =>
      rw [hgl] at hc
      simp only [Except.ok.injEq] at hc
      rw [← hc]

/-- A successful loop step yields a pair whose snapshot carries the
uppercased ticker. -/
lemma analyzeStep_ok_ticker (pk okKey : String)
    (penv : String → Except String PolygonResponse) (mr : Nat → MockRand)
    (rr : Nat → RecRand) (i : Nat) (t : String)
    (pair : PolygonStockData × OpenAIRecommendation)
    (h : analyzeStep pk okKey penv mr rr i t = Except.ok pair) :
    pair.1.ticker = jsToUpper t := by
  unfold analyzeStep at h
  split at h
  · cases hg : getStockData t (penv t) with
    | error e => rw [hg] at h; simp at h
    | ok sd =>
        rw [hg] at h
        simp only [Except.ok.injEq] at h
        rw [← h]
        exact getStockData_ok_ticker t (penv t) sd hg
  · simp only [Except.ok.injEq] at h
    rw [← h]
    rfl

/-- In mock mode the loop never fails and produces exactly one mock pair
per ticker, in order. -/
lemma analyzeTickersFrom_mock (penv : String → Except String PolygonResponse)
    (mr : Nat → MockRand) (rr : Nat → RecRand) :
    ∀ (i : Nat) (ts : List String),
      analyzeTickersFrom "" "" penv mr rr i ts =
        Except.ok ((ts.enumFrom i).map (mockPair mr rr)) := by
  intro i ts
  induction ts generalizing i with
  | nil => rfl
  | cons t rest ih =>
      simp [analyzeTickersFrom, analyzeStep, ih, mockPair, List.enumFrom]

/-- A successful loop run has one result per ticker, in order, with the
uppercased tickers. -/
lemma analyzeTickersFrom_ok_shape (pk okKey : String)
    (penv : String → Except String PolygonResponse) (mr : Nat → MockRand)
    (rr : Nat → RecRand) :
    ∀ (i : Nat) (ts : List String) (rs : List (PolygonStockData × OpenAIRecommendation)),
      analyzeTickersFrom pk okKey penv mr rr i ts = Except.ok rs →
      rs.length = ts.length ∧
      ∀ j, j < ts.length →
        (rs.getD j dummyPair).1.ticker = jsToUpper (ts.getD j "") := by
  intro i ts
  induction ts generalizing i with
  | nil =>
      intro rs h
      simp only [analyzeTickersFrom, Except.ok.injEq] at h
      subst h
      exact ⟨rfl, fun j hj => absurd hj (by simp)⟩
  | cons t rest ih =>
      intro rs h
      unfold analyzeTickersFrom at h
      cases hstep : analyzeStep pk okKey penv mr rr i t with
      | error e => rw [hstep] at h; simp at h
      | ok pair =>
          rw [hstep] at h
          cases hrest : analyzeTickersFrom pk okKey penv mr rr (i + 1) rest with
          | error e => rw [hrest] at h; simp at h
          | ok pairs =>
              rw [hrest] at h
              simp only [Except.ok.injEq] at h
              subst h
              obtain ⟨ihlen, ihtick⟩ := ih (i + 1) pairs hrest
              refine ⟨by simp [ihlen], ?_⟩
              intro j hj
              cases j with
              | zero =>
                  simpa using analyzeStep_ok_ticker pk okKey penv mr rr i t pair hstep
              | succ j2 =>
                  have hj2 : j2 < rest.length := by simpa using hj
                  simpa using ihtick j2 hj2

/-- C4: a run of the multi-ticker `handleAnalyze` over a non-empty
watchlist in which every ticker succeeds commits exactly one result pair
per watchlist entry, in watchlist order, each snapshot carrying the
uppercased ticker; in mock mode (no credentials) every ticker succeeds
and the committed list is exactly the per-index mock pairs. -/
theorem analysis_one_result_per_ticker :
    (∀ (pk okKey : String) (penv : String → Except String PolygonResponse)
        (mr : Nat → MockRand) (rr : Nat → RecRand) (tickers : List String)
        (st : MultiState) (rs : List (PolygonStockData × OpenAIRecommendation)),
        tickers ≠ [] →
        analyzeTickersFrom pk okKey penv mr rr 0 tickers = Except.ok rs →
        (handleAnalyzeMulti pk okKey tickers penv mr rr st).results = rs ∧
        (handleAnalyzeMulti pk okKey tickers penv mr rr st).error = none ∧
        rs.length = tickers.length ∧
        ∀ j, j < tickers.length →
          (rs.getD j dummyPair).1.ticker = jsToUpper (tickers.getD j "")) ∧
    (∀ (penv : String → Except String PolygonResponse) (mr : Nat → MockRand)
        (rr : Nat → RecRand) (tickers : List String) (st : MultiState),
        tickers ≠ [] →
        (handleAnalyzeMulti "" "" tickers penv mr rr st).results =
          tickers.enum.map (mockPair mr rr) ∧
        (handleAnalyzeMulti "" "" tickers penv mr rr st).error = none) := by
  have hcommit : ∀ (pk okKey : String) (penv : String → Except String PolygonResponse)
      (mr : Nat → MockRand) (rr : Nat → RecRand) (tickers : List String)
      (st : MultiState) (rs : List (PolygonStockData × OpenAIRecommendation)),
      tickers ≠ [] →
      analyzeTickersFrom pk okKey penv mr rr 0 tickers = Except.ok rs →
      (handleAnalyzeMulti pk okKey tickers penv mr rr st).results = rs ∧
      (handleAnalyzeMulti pk okKey tickers penv mr rr st).error = none := by
    intro pk okKey penv mr rr tickers st rs hne hrun
    unfold handleAnalyzeMulti
    rw [if_neg (by simpa using hne), hrun]
    exact ⟨rfl, rfl⟩
  constructor
  · intro pk okKey penv mr rr tickers st rs hne hrun
    obtain ⟨h1, h2⟩ := hcommit pk okKey penv mr rr tickers st rs hne hrun
    obtain ⟨h3, h4⟩ := analyzeTickersFrom_ok_shape pk okKey penv mr rr 0 tickers rs hrun
    exact ⟨h1, h2, h3, h4⟩
  · intro penv mr rr tickers st hne
    have hrun := analyzeTickersFrom_mock penv mr rr 0 tickers
    have henum : tickers.enumFrom 0 = tickers.enum := rfl
    rw [henum] at hrun
    exact hcommit "" "" penv mr rr tickers st _ hne hrun

/-- Witness for C4: the watchlist `[AAPL, TSLA]` run in mock mode yields
exactly the two mock pairs, in order. -/
theorem analysis_one_result_per_ticker_witness :
    (handleAnalyzeMulti "" "" ["AAPL", "TSLA"] errPolygonEnv constMockRand constRecRand
        emptyMultiState).results =
      (["AAPL", "TSLA"] : List String).enum.map (mockPair constMockRand constRecRand) ∧
    (handleAnalyzeMulti "" "" ["AAPL", "TSLA"] errPolygonEnv constMockRand constRecRand
        emptyMultiState).error = none :=
  analysis_one_result_per_ticker.2 errPolygonEnv constMockRand constRecRand
    ["AAPL", "TSLA"] emptyMultiState (by simp)

/-- C5 counterexample: the single-ticker variant does NOT leave the
previously displayed successful result untouched on failure — it clears
`stockData` (and `aiRecommendation`) at the start of the run, so after a
failed fetch the previous snapshot is gone and only the error remains. -/
theorem single_variant_stale_counterexample :
    idleSingleState.stockData = some sampleSnapshot ∧
    (handleAnalyzeSingle "k" "k" "AAPL" errPolygonEnv errOpenaiEnv mockRand0 recRand0
        idleSingleState).stockData = none ∧
    (handleAnalyzeSingle "k" "k" "AAPL" errPolygonEnv errOpenaiEnv mockRand0 recRand0
        idleSingleState).aiRecommendation = none ∧
    (handleAnalyzeSingle "k" "k" "AAPL" errPolygonEnv errOpenaiEnv mockRand0 recRand0
        idleSingleState).error = some "Failed to fetch stock data for AAPL" ∧
    (handleAnalyzeSingle "k" "k" "AAPL" errPolygonEnv errOpenaiEnv mockRand0 recRand0
        idleSingleState).stockData ≠ idleSingleState.stockData := by
  have htrim : ¬ (jsTrim "AAPL" = "") := by decide
  have hk : ("k" : String) ≠ "" := by decide
  refine ⟨rfl, ?_, ?_, ?_, ?_⟩ <;>
    simp [handleAnalyzeSingle, htrim, hk, errPolygonEnv, getStockData, Except.bind,
      idleSingleState, sampleSnapshot]

/-- C5 (amended): when the fetch fails, or the fetch succeeds and the
recommend step fails, on a non-blank input with both credentials
present, the single-ticker variant surfaces the error with `stockData`
and `aiRecommendation` cleared (the previous successful result is
discarded at the start of the run, not preserved), and the multi-ticker
variant surfaces any run error with the result list left empty. -/
theorem failure_clears_results :
    (∀ (pk okKey tk : String) (penv : String → Except String PolygonResponse)
        (oenv : PolygonStockData → Except String ReplyContent)
        (mr : MockRand) (rr : RecRand) (st : SingleState) (e : String),
        jsTrim tk ≠ "" → pk ≠ "" → okKey ≠ "" →
        (getStockData tk (penv tk) = Except.error e ∨
          ∃ sd, getStockData tk (penv tk) = Except.ok sd ∧
            getStockRecommendation sd (oenv sd) = Except.error e) →
        handleAnalyzeSingle pk okKey tk penv oenv mr rr st =
          { stockData := none, aiRecommendation := none, error := some e,
            loading := false }) ∧
    (∀ (pk okKey : String) (tickers : List String)
        (penv : String → Except String PolygonResponse) (mr : Nat → MockRand)
        (rr : Nat → RecRand) (st : MultiState) (e : String),
        tickers ≠ [] →
        (handleAnalyzeMulti pk okKey tickers penv mr rr st).error = some e →
        (handleAnalyzeMulti pk okKey tickers penv mr rr st).results = []) := by
  constructor
  · intro pk okKey tk penv oenv mr rr st e htrim hpk hok hfail
    rcases hfail with hfetch | ⟨sd, hfetch, hrec⟩
    · simp [handleAnalyzeSingle, htrim, hpk, hok, hfetch]
    · simp [handleAnalyzeSingle, htrim, hpk, hok, hfetch, hrec]
  · intro pk okKey tickers penv mr rr st e hne herr
    unfold handleAnalyzeMulti at herr ⊢
    rw [if_neg (by simpa using hne)] at herr ⊢
    cases hrun : analyzeTickersFrom pk okKey penv mr rr 0 tickers with
    | ok rs => rw [hrun] at herr; simp at herr
    | error e2 => rfl

/-- Witness for the amended C5, exercising both failure kinds: a failing
vendor fetch and a successful fetch followed by a failing recommend step
each leave the single run cleared with the surfaced error, and a failing
multi run ends with an empty result list. -/
theorem failure_clears_results_witness :
    handleAnalyzeSingle "k" "k" "AAPL" errPolygonEnv errOpenaiEnv mockRand0 recRand0
        idleSingleState =
      { stockData := none, aiRecommendation := none,
        error := some "Failed to fetch stock data for AAPL", loading := false } ∧
    handleAnalyzeSingle "k" "k" "AAPL" okPolygonEnv errOpenaiEnv mockRand0 recRand0
        idleSingleState =
      { stockData := none, aiRecommendation := none,
        error := some "Failed to generate AI recommendation", loading := false } ∧
    (handleAnalyzeMulti "k" "k" ["AAPL"] errPolygonEnv constMockRand constRecRand
        emptyMultiState).results = [] := by
  have hsnap : getStockData "AAPL" (okPolygonEnv "AAPL") = Except.ok aaplSnapshot := by
    have hup : jsToUpper "AAPL" = "AAPL" := by decide
    simp [okPolygonEnv, getStockData, getStockDataCore, Except.bind, round2_zero, hup,
      aaplSnapshot]
  refine ⟨failure_clears_results.1 "k" "k" "AAPL" errPolygonEnv errOpenaiEnv mockRand0
      recRand0 idleSingleState "Failed to fetch stock data for AAPL" (by decide) (by decide)
      (by decide) (Or.inl rfl),
    failure_clears_results.1 "k" "k" "AAPL" okPolygonEnv errOpenaiEnv mockRand0 recRand0
      idleSingleState "Failed to generate AI recommendation" (by decide) (by decide)
      (by decide) (Or.inr ⟨aaplSnapshot, hsnap, rfl⟩),
    failure_clears_results.2 "k" "k" ["AAPL"] errPolygonEnv constMockRand constRecRand
      emptyMultiState "Failed to fetch stock data for AAPL" (by simp) rfl⟩

/-- With both credentials present, every pair a successful multi-ticker
loop run produces has its snapshot from `getStockData` on some watchlist
ticker and its recommendation from `createMockRecommendation` applied to
that snapshot. -/
lemma analyzeTickersFrom_real_src (pk okKey : String)
    (penv : String → Except String PolygonResponse) (mr : Nat → MockRand)
    (rr : Nat → RecRand) (hpk : pk ≠ "") (hok : okKey ≠ "") :
    ∀ (i : Nat) (ts : List String) (rs : List (PolygonStockData × OpenAIRecommendation)),
      analyzeTickersFrom pk okKey penv mr rr i ts = Except.ok rs →
      ∀ p ∈ rs, (∃ t ∈ ts, getStockData t (penv t) = Except.ok p.1) ∧
        ∃ n, p.2 = createMockRecommendation p.1 (rr n) := by
  intro i ts
  induction ts generalizing i with
  | nil =>
      intro rs h
      simp only [analyzeTickersFrom, Except.ok.injEq] at h
      subst h
      intro p hp
      simp at hp
  | cons t rest ih =>
      intro rs h
      unfold analyzeTickersFrom at h
      cases hstep : analyzeStep pk okKey penv mr rr i t with
      | error e => rw [hstep] at h; simp at h
      | ok pair =>
          rw [hstep] at h
          cases hrest : analyzeTickersFrom pk okKey penv mr rr (i + 1) rest with
          | error e => rw [hrest] at h; simp at h
          | ok pairs =>
              rw [hrest] at h
              simp only [Except.ok.injEq] at h
              subst h
              intro p hp
              rcases List.mem_cons.mp hp with hp | hp
              · subst hp
                unfold analyzeStep at hstep
                rw [if_pos ⟨hpk, hok⟩] at hstep
                cases hg : getStockData t (penv t) with
                | error e => rw [hg] at hstep; simp at hstep
                | ok sd =>
                    rw [hg] at hstep
                    simp only [Except.ok.injEq] at hstep
                    subst hstep
                    exact ⟨⟨t, List.mem_cons_self t rest, hg⟩, i, rfl⟩
              · obtain ⟨⟨t2, ht2, hg2⟩, hn⟩ := ih (i + 1) pairs hrest p hp
                exact ⟨⟨t2, List.mem_cons_of_mem t ht2, hg2⟩, hn⟩

/-- Reduction of the single-ticker `handleAnalyze` on the real path. -/
lemma handleAnalyzeSingle_real_eq (pk okKey tk : String)
    (penv : String → Except String PolygonResponse)
    (oenv : PolygonStockData → Except String ReplyContent)
    (mr : MockRand) (rr : RecRand) (st : SingleState)
    (hpk : pk ≠ "") (hok : okKey ≠ "") (htrim : jsTrim tk ≠ "") :
    handleAnalyzeSingle pk okKey tk penv oenv mr rr st =
      match getStockData tk (penv tk) with
      | Except.error e =>
          { stockData := none, aiRecommendation := none, error := some e, loading := false }
      | Except.ok sd =>
          match getStockRecommendation sd (oenv sd) with
          | Except.error e =>
              { stockData := none, aiRecommendation := none, error := some e,
                loading := false }
          | Except.ok ar =>
              { stockData := some sd, aiRecommendation := some ar, error := none,
                loading := false } := by
  unfold handleAnalyzeSingle
  rw [if_neg htrim, if_pos ⟨hpk, hok⟩]
  cases getStockData tk (penv tk) with
  | error e => rfl
  | ok sd =>
      cases hr : getStockRecommendation sd (oenv sd) with
      | error e => simp [hr]
      | ok ar => simp [hr]

/-- C7 (amended): with both credentials present, the single-ticker
variant takes the full real path — a committed result means the snapshot
came from `getStockData` and the recommendation from
`getStockRecommendation` on that snapshot — while the multi-ticker
variant fetches the snapshot with `getStockData` but builds every
recommendation with `createMockRecommendation` applied to that snapshot
(its model call is commented out in the source); only when a credential
is absent is the full mock path taken. -/
theorem real_path_amended :
    (∀ (pk okKey tk : String) (penv : String → Except String PolygonResponse)
        (oenv : PolygonStockData → Except String ReplyContent)
        (mr : MockRand) (rr : RecRand) (st : SingleState)
        (sd : PolygonStockData) (ar : OpenAIRecommendation),
        pk ≠ "" → okKey ≠ "" → jsTrim tk ≠ "" →
        handleAnalyzeSingle pk okKey tk penv oenv mr rr st =
          { stockData := some sd, aiRecommendation := some ar, error := none,
            loading := false } →
        getStockData tk (penv tk) = Except.ok sd ∧
        getStockRecommendation sd (oenv sd) = Except.ok ar) ∧
    (∀ (pk okKey : String) (tickers : List String)
        (penv : String → Except String PolygonResponse) (mr : Nat → MockRand)
        (rr : Nat → RecRand) (st : MultiState),
        pk ≠ "" → okKey ≠ "" → tickers ≠ [] →
        ∀ p ∈ (handleAnalyzeMulti pk okKey tickers penv mr rr st).results,
          (∃ t ∈ tickers, getStockData t (penv t) = Except.ok p.1) ∧
          ∃ n, p.2 = createMockRecommendation p.1 (rr n)) := by
  constructor
  · intro pk okKey tk penv oenv mr rr st sd ar hpk hok htrim hfinal
    rw [handleAnalyzeSingle_real_eq pk okKey tk penv oenv mr rr st hpk hok htrim] at hfinal
    cases hg : getStockData tk (penv tk) with
    | error e => rw [hg] at hfinal; simp at hfinal
    | ok sd2 =>
        rw [hg] at hfinal
        have hfinal2 : (match getStockRecommendation sd2 (oenv sd2) with
            | Except.error e =>
                ({ stockData := none, aiRecommendation := none, error := some e,
                   loading := false } : SingleState)
            | Except.ok ar2 =>
                { stockData := some sd2, aiRecommendation := some ar2, error := none,
                  loading := false }) =
            { stockData := some sd, aiRecommendation := some ar, error := none,
              loading := false } := hfinal
        cases hr : getStockRecommendation sd2 (oenv sd2) with
        | error e => rw [hr] at hfinal2; simp at hfinal2
        | ok ar2 =>
            rw [hr] at hfinal2
            simp only [SingleState.mk.injEq, Option.some.injEq] at hfinal2
            obtain ⟨h1, h2, -⟩ := hfinal2
            subst h1
            subst h2
            exact ⟨rfl, hr⟩
  · intro pk okKey tickers penv mr rr st hpk hok hne p hp
    unfold handleAnalyzeMulti at hp
    rw [if_neg (by simpa using hne)] at hp
    cases hrun : analyzeTickersFrom pk okKey penv mr rr 0 tickers with
    | error e => rw [hrun] at hp; simp at hp
    | ok rs =>
        rw [hrun] at hp
        simp only [] at hp
        exact analyzeTickersFrom_real_src pk okKey penv mr rr hpk hok 0 tickers rs hrun p hp

/-- C7 counterexample: a multi-ticker run with both credentials present
(keys `k`/`k`) commits a recommendation that is exactly the output of the
mock generator `createMockRecommendation` (its templated reasoning
included) applied to the fetched snapshot — the mock generator IS used on
the credentialed path, and the model client is never consulted. -/
theorem multi_real_path_counterexample :
    ("k" : String) ≠ "" ∧
    (handleAnalyzeMulti "k" "k" ["AAPL"] okPolygonEnv constMockRand constRecRand
        emptyMultiState).results =
      [(aaplSnapshot, createMockRecommendation aaplSnapshot recRand0)] ∧
    (createMockRecommendation aaplSnapshot recRand0).reasoning = mockReasoning aaplSnapshot := by
  have hk : ("k" : String) ≠ "" := by decide
  have hup : jsToUpper "AAPL" = "AAPL" := by decide
  have hsnap : getStockData "AAPL" (okPolygonEnv "AAPL") = Except.ok aaplSnapshot := by
    simp [okPolygonEnv, getStockData, getStockDataCore, Except.bind, round2_zero, hup,
      aaplSnapshot]
  refine ⟨hk, ?_, rfl⟩
  simp [handleAnalyzeMulti, analyzeTickersFrom, analyzeStep, hk, hsnap, constRecRand]

/-- Witness for the amended C7: a concrete credentialed single-ticker run
commits the real fetch plus real recommendation, and a concrete
credentialed multi-ticker run pairs the real fetch with the mock
recommendation. -/
theorem real_path_amended_witness :
    (getStockData "AAPL" (okPolygonEnv "AAPL") = Except.ok aaplSnapshot ∧
      getStockRecommendation aaplSnapshot (goodOpenaiEnv aaplSnapshot) = Except.ok goodRec) ∧
    ((∃ t ∈ (["AAPL"] : List String),
        getStockData t (okPolygonEnv t) =
          Except.ok (aaplSnapshot, createMockRecommendation aaplSnapshot recRand0).1) ∧
      ∃ n, (aaplSnapshot, createMockRecommendation aaplSnapshot recRand0).2 =
        createMockRecommendation
          (aaplSnapshot, createMockRecommendation aaplSnapshot recRand0).1
          (constRecRand n)) := by
  have hk : ("k" : String) ≠ "" := by decide
  have htrim : jsTrim "AAPL" ≠ "" := by decide
  have hup : jsToUpper "AAPL" = "AAPL" := by decide
  have hsnap : getStockData "AAPL" (okPolygonEnv "AAPL") = Except.ok aaplSnapshot := by
    simp [okPolygonEnv, getStockData, getStockDataCore, Except.bind, round2_zero, hup,
      aaplSnapshot]
  have hrec : getStockRecommendation aaplSnapshot (goodOpenaiEnv aaplSnapshot) =
      Except.ok goodRec := by
    have h0 : goodOpenaiEnv aaplSnapshot = Except.ok (ReplyContent.parsed
        { recommendation := some "BUY", confidence := some 80, reasoning := some "solid",
          riskLevel := none, priceTarget := none }) := rfl
    rw [h0, getStockRecommendation_parsed, validateAndBuild_accept _ (by decide)
      (truthyNum_true 80 (by norm_num)) (by decide)]
    have hmm : min (max (80 : ℚ) 60) 100 = 80 := by
      rw [max_eq_left (by norm_num), min_eq_left (by norm_num)]
    simp [truthyStr, hmm, goodRec]
  constructor
  · refine real_path_amended.1 "k" "k" "AAPL" okPolygonEnv goodOpenaiEnv mockRand0 recRand0
      idleSingleState aaplSnapshot goodRec hk hk htrim ?_
    rw [handleAnalyzeSingle_real_eq "k" "k" "AAPL" okPolygonEnv goodOpenaiEnv mockRand0
      recRand0 idleSingleState hk hk htrim, hsnap]
    simp [hrec]
  · refine real_path_amended.2 "k" "k" ["AAPL"] okPolygonEnv constMockRand constRecRand
      emptyMultiState hk hk (by simp) _ ?_
    simp [handleAnalyzeMulti, analyzeTickersFrom, analyzeStep, hk, hsnap, constRecRand]
